import Mathlib

/-!
Verification development for `verification/verify_background_picker.py`.

The script drives a headless browser through a fixed linear sequence of
browser-automation calls.  We embed one execution of `run()` as a pure
function of an `Oracle` recording the values the two observation points
return (whether the readiness wait succeeds within its timeout, and the
result of the single `is_visible()` call).  The function produces the
ordered trace of externally visible effects together with the outcome
(normal return or a propagated `TimeoutError`).

Modelling notes, each tied to a source line:
* `with sync_playwright() as p:` is a scoped session: its exit runs on
  every path out of the block, including the exception path, and stopping
  the Playwright driver terminates every browser it launched.  The exit is
  the `stopPlaywright` event, emitted last on both paths.
* `expect(start_btn).to_be_enabled(timeout=20000)` either succeeds or
  raises `TimeoutError`; nothing in the script catches it, so on the
  failure path the trace ends after the scoped-session exit and the
  result is `Except.error`.
* `page.get_by_text("Choose Background").is_visible()` returns a boolean
  and does not raise (Playwright contract: a non-matching locator yields
  `False`); the oracle supplies its value.
* `page.screenshot(path="verification/verification.png")` passes no
  `full_page` argument, so the Playwright default `full_page=False`
  applies; the screenshot event therefore carries `fullPage := false`.
* `browser.close()` is reached only on the non-exception path; on the
  timeout path the browser is torn down by the scoped-session exit.
-/

/-- The values returned by the two browser observation points during one
execution of `run()`: whether the readiness wait on the "Start Recording"
button succeeds within its timeout, and the boolean returned by the
`is_visible()` check for the "Choose Background" text. -/
structure Oracle where
  waitEnabledOk : Bool
  chooseBackgroundVisible : Bool

deriving instance DecidableEq for Oracle

/-- Externally visible effects of one execution, in program order. -/
inductive Event where
  | launchBrowser (headless : Bool) (args : List String)
  | newPage
  | goto (url : String)
  | waitEnabled (selector : String) (hasText : String) (timeoutMs : Nat)
  | isVisibleCheck (text : String)
  | printLine (line : String)
  | screenshot (path : String) (fullPage : Bool)
  | closeBrowser
  | stopPlaywright

deriving instance DecidableEq for Event

/-- The only error the script can raise itself: the readiness wait
exceeding its bound (`expect(...).to_be_enabled(timeout=20000)`). -/
inductive PwError where
  | timeoutError

deriving instance DecidableEq for PwError

def targetUrl : String := "http://localhost:5173/"

def launchArgs : List String :=
  ["--use-fake-ui-for-media-stream", "--use-fake-device-for-media-stream"]

def screenshotPath : String := "verification/verification.png"

def passLine : String := "PASS: Background picker not on start screen"

def failLine : String := "FAIL: Background picker found on start screen"

def savedLine : String := "Screenshot saved."

/-- Embedding of `run()` from `verify_background_picker.py`, line by line:
launch chromium headless with the two fake-media flags, open a page,
navigate to the fixed URL, wait (bound 20000 ms) for the "Start Recording"
button to be enabled, then — only if the wait succeeded — perform the
single visibility check, print the PASS or FAIL line, take the screenshot
(Playwright default `full_page=False`), print the confirmation line and
close the browser.  The scoped `sync_playwright()` session exit
(`stopPlaywright`) runs on both paths; on the timeout path the error
propagates out as `Except.error`. -/
def run (o : Oracle) : List Event × Except PwError Unit :=
  let setup : List Event :=
    [Event.launchBrowser true launchArgs, Event.newPage, Event.goto targetUrl]
  let waitEv : Event := Event.waitEnabled "button" "Start Recording" 20000
  if o.waitEnabledOk then
    let checkLine : String :=
      if o.chooseBackgroundVisible then failLine else passLine
    (setup ++ [waitEv,
               Event.isVisibleCheck "Choose Background",
               Event.printLine checkLine,
               Event.screenshot screenshotPath false,
               Event.printLine savedLine,
               Event.closeBrowser,
               Event.stopPlaywright],
     Except.ok ())
  else
    (setup ++ [waitEv, Event.stopPlaywright],
     Except.error PwError.timeoutError)

/-- Embedding of module import: `run()` is called only under the
`if __name__ == "__main__":` guard (the last two lines of the file), so
loading the module under any other name performs no effect at all. -/
def loadModule (name : String) (o : Oracle) : List Event × Except PwError Unit :=
  if name = "__main__" then run o else ([], Except.ok ())

/-- Process exit status: zero on normal return, non-zero when an uncaught
error propagates out of `run()`. -/
def exitCode (r : Except PwError Unit) : Nat :=
  match r with
  | Except.ok _ => 0
  | Except.error _ => 1

/-- The lines written to standard output, in order. -/
def printedLines (t : List Event) : List String :=
  t.filterMap fun e =>
    match e with
    | Event.printLine s => some s
    | _ => none

/-- The screenshot requests in the trace: path and full-page flag. -/
def screenshotEvents (t : List Event) : List (String × Bool) :=
  t.filterMap fun e =>
    match e with
    | Event.screenshot p fp => some (p, fp)
    | _ => none

/-- The readiness waits in the trace: selector, text filter and bound. -/
def waitEvents (t : List Event) : List (String × String × Nat) :=
  t.filterMap fun e =>
    match e with
    | Event.waitEnabled sel txt ms => some (sel, txt, ms)
    | _ => none

/-- How many visibility checks the trace performs. -/
def visibleCheckCount (t : List Event) : Nat :=
  (t.filter fun e =>
    match e with
    | Event.isVisibleCheck _ => true
    | _ => false).length

/-- Browser-process liveness after one event: launching makes it alive,
`browser.close()` or the scoped Playwright session exit terminates it. -/
def browserStep (alive : Bool) (e : Event) : Bool :=
  match e with
  | Event.launchBrowser _ _ => true
  | Event.closeBrowser => false
  | Event.stopPlaywright => false
  | _ => alive

/-- Whether a browser process is still alive after the whole trace. -/
def browserAliveAfter (t : List Event) : Bool :=
  t.foldl browserStep false

/-- Filesystem abstraction: the set of artifact paths present, as a
duplicate-free list.  A screenshot write creates the path if absent and
overwrites in place if present — either way the path is present after. -/
def applyEventFS (fs : List String) (e : Event) : List String :=
  match e with
  | Event.screenshot p _ => if p ∈ fs then fs else p :: fs
  | _ => fs

/-- The artifact paths present after running the trace from `fs`. -/
def fsAfter (t : List Event) (fs : List String) : List String :=
  t.foldl applyEventFS fs

/-- On a successful run the filesystem gains exactly the screenshot path
(no change when it was already present: overwrite in place). -/
theorem fsAfter_run_success (o : Oracle) (fs : List String)
    (h : o.waitEnabledOk = true) :
    fsAfter (run o).1 fs =
      if screenshotPath ∈ fs then fs else screenshotPath :: fs := by
  obtain ⟨w, v⟩ := o
  cases w with
  | false => exact Bool.noConfusion h
  | true => cases v <;> rfl

/-- Claim C1, as written, is false: the screenshot call passes no
`full_page` argument, so Playwright captures the viewport with its
default `full_page=False`, never a full-page screenshot.  Concretely, in
the run whose readiness wait succeeds and whose visibility check returns
false, the trace requests exactly one screenshot, at the fixed path with
`fullPage = false`, and requests no full-page screenshot. -/
theorem run_fullpage_counterexample :
    screenshotEvents (run ⟨true, false⟩).1 = [(screenshotPath, false)] ∧
      ("verification/verification.png", true) ∉
        screenshotEvents (run ⟨true, false⟩).1 := by
  constructor
  · rfl
  · decide

/-- Claim C1 (amended): in every run that reaches step 6 (readiness wait
succeeded), `run()` captures a screenshot with the Playwright default
`full_page=False` (viewport, not full-page) and persists it to the fixed
relative path `verification/verification.png`, overwriting any prior file
at that path (the path is present afterwards whatever the prior state). -/
theorem run_screenshot_viewport (o : Oracle) (h : o.waitEnabledOk = true) :
    screenshotEvents (run o).1 = [("verification/verification.png", false)] ∧
      ∀ fs : List String, screenshotPath ∈ fsAfter (run o).1 fs := by
  constructor
  · obtain ⟨w, v⟩ := o
    cases w with
    | false => exact Bool.noConfusion h
    | true => cases v <;> rfl
  · intro fs
    rw [fsAfter_run_success o fs h]
    by_cases hm : screenshotPath ∈ fs <;> simp [hm]

/-- Claim C1 witness: the amended statement at the concrete oracle where
the wait succeeds and the picker is not visible. -/
theorem run_screenshot_viewport_witness :
    screenshotEvents (run ⟨true, false⟩).1 =
        [("verification/verification.png", false)] ∧
      screenshotPath ∈ fsAfter (run ⟨true, false⟩).1 [] := by
  exact ⟨(run_screenshot_viewport ⟨true, false⟩ rfl).1,
         (run_screenshot_viewport ⟨true, false⟩ rfl).2 []⟩

/-- Claim C2: on every exit path of `run()` — normal completion, the
FAIL-printed case, or the exception raised by the readiness wait — a
browser is launched and no browser process is alive once the trace ends:
either `browser.close()` ran, or the scoped `sync_playwright()` exit
terminated it before the error propagated out. -/
theorem run_browser_terminated (o : Oracle) :
    Event.launchBrowser true launchArgs ∈ (run o).1 ∧
      browserAliveAfter (run o).1 = false := by
  obtain ⟨w, v⟩ := o
  cases w <;> cases v <;> exact ⟨by decide, rfl⟩

/-- Claim C3: whenever the readiness wait succeeds, `run()` performs
exactly one visibility check of the "Choose Background" text, prints
exactly the PASS line if it is not visible and exactly the FAIL line if
it is, and the check raises nothing: the run still completes normally
(the only further output being the screenshot confirmation line). -/
theorem run_visibility_check_once (o : Oracle) (h : o.waitEnabledOk = true) :
    visibleCheckCount (run o).1 = 1 ∧
      printedLines (run o).1 =
        [if o.chooseBackgroundVisible then failLine else passLine,
         savedLine] ∧
      (run o).2 = Except.ok () := by
  obtain ⟨w, v⟩ := o
  cases w with
  | false => exact Bool.noConfusion h
  | true => cases v <;> exact ⟨rfl, rfl, rfl⟩

/-- Claim C3 witness: the statement at the concrete oracle where the wait
succeeds and the "Choose Background" text is visible. -/
theorem run_visibility_check_once_witness :
    visibleCheckCount (run ⟨true, true⟩).1 = 1 ∧
      printedLines (run ⟨true, true⟩).1 =
        [if (true : Bool) then failLine else passLine, savedLine] ∧
      (run ⟨true, true⟩).2 = Except.ok () := by
  exact run_visibility_check_once ⟨true, true⟩ rfl

/-- Claim C4: every run performs exactly one readiness wait, on the
"Start Recording" button locator, with a bound of exactly 20 seconds
(20000 ms); and when the element does not become enabled within that
bound, the resulting `TimeoutError` is caught nowhere and propagates out
of `run()`, so the process exits with a non-zero status. -/
theorem run_wait_timeout_bound (o : Oracle) :
    waitEvents (run o).1 = [("button", "Start Recording", 20 * 1000)] ∧
      (o.waitEnabledOk = false →
        (run o).2 = Except.error PwError.timeoutError ∧
          exitCode (run o).2 ≠ 0) := by
  obtain ⟨w, v⟩ := o
  cases w with
  | false => exact ⟨rfl, fun _ => ⟨rfl, Nat.one_ne_zero⟩⟩
  | true => cases v <;> exact ⟨rfl, fun hc => Bool.noConfusion hc⟩

/-- Claim C4 witness: the statement at the concrete oracle whose
readiness wait times out, with the inner hypothesis discharged. -/
theorem run_wait_timeout_bound_witness :
    waitEvents (run ⟨false, false⟩).1 =
        [("button", "Start Recording", 20 * 1000)] ∧
      (run ⟨false, false⟩).2 = Except.error PwError.timeoutError ∧
        exitCode (run ⟨false, false⟩).2 ≠ 0 := by
  exact ⟨(run_wait_timeout_bound ⟨false, false⟩).1,
         (run_wait_timeout_bound ⟨false, false⟩).2 rfl⟩

/-- Claim C5: if the readiness wait times out, none of the later side
effects happen: nothing is printed, no screenshot is requested, and the
filesystem is left exactly as it was. -/
theorem run_timeout_no_effects (o : Oracle) (h : o.waitEnabledOk = false) :
    printedLines (run o).1 = [] ∧
      screenshotEvents (run o).1 = [] ∧
      ∀ fs : List String, fsAfter (run o).1 fs = fs := by
  obtain ⟨w, v⟩ := o
  cases w with
  | false => exact ⟨rfl, rfl, fun _ => rfl⟩
  | true => exact Bool.noConfusion h

/-- Claim C5 witness: the statement at a concrete timed-out oracle and a
concrete prior filesystem. -/
theorem run_timeout_no_effects_witness :
    printedLines (run ⟨false, true⟩).1 = [] ∧
      screenshotEvents (run ⟨false, true⟩).1 = [] ∧
      fsAfter (run ⟨false, true⟩).1 ["old.png"] = ["old.png"] := by
  exact ⟨(run_timeout_no_effects ⟨false, true⟩ rfl).1,
         (run_timeout_no_effects ⟨false, true⟩ rfl).2.1,
         (run_timeout_no_effects ⟨false, true⟩ rfl).2.2 ["old.png"]⟩

/-- Claim C6: a visible "Choose Background" element is non-fatal: when
the wait succeeds and the check sees the element, `run()` still prints
the FAIL line followed by the screenshot confirmation, still requests the
screenshot at the fixed path, and still returns normally with exit
status zero. -/
theorem run_fail_nonfatal (o : Oracle) (hw : o.waitEnabledOk = true)
    (hv : o.chooseBackgroundVisible = true) :
    printedLines (run o).1 = [failLine, savedLine] ∧
      screenshotEvents (run o).1 = [(screenshotPath, false)] ∧
      exitCode (run o).2 = 0 := by
  obtain ⟨w, v⟩ := o
  cases w with
  | false => exact Bool.noConfusion hw
  | true =>
    cases v with
    | false => exact Bool.noConfusion hv
    | true => exact ⟨rfl, rfl, rfl⟩

/-- Claim C6 witness: the statement at the concrete oracle where the wait
succeeds and the picker is visible. -/
theorem run_fail_nonfatal_witness :
    printedLines (run ⟨true, true⟩).1 = [failLine, savedLine] ∧
      screenshotEvents (run ⟨true, true⟩).1 = [(screenshotPath, false)] ∧
      exitCode (run ⟨true, true⟩).2 = 0 := by
  exact run_fail_nonfatal ⟨true, true⟩ rfl rfl

/-- Claim C7: running the script twice in succession writes to the same
fixed path both times, overwriting in place: for any initial set of
artifact files, the set after two successful runs equals the set after
one (no duplicate or versioned files accumulate). -/
theorem run_artifact_idempotent (o1 o2 : Oracle) (fs : List String)
    (h1 : o1.waitEnabledOk = true) (h2 : o2.waitEnabledOk = true) :
    fsAfter (run o2).1 (fsAfter (run o1).1 fs) = fsAfter (run o1).1 fs := by
  rw [fsAfter_run_success o1 fs h1]
  by_cases hm : screenshotPath ∈ fs
  · rw [if_pos hm, fsAfter_run_success o2 fs h2, if_pos hm]
  · rw [if_neg hm, fsAfter_run_success o2 (screenshotPath :: fs) h2,
        if_pos (List.mem_cons_self screenshotPath fs)]

/-- Claim C7 witness: two successful runs starting from an empty artifact
set leave exactly what one run leaves. -/
theorem run_artifact_idempotent_witness :
    fsAfter (run ⟨true, true⟩).1 (fsAfter (run ⟨true, false⟩).1 []) =
      fsAfter (run ⟨true, false⟩).1 [] := by
  exact run_artifact_idempotent ⟨true, false⟩ ⟨true, true⟩ [] rfl rfl

/-- Claim C8: every run — whatever the oracle, since `run()` reads no
command-line flags or arguments — starts by launching the browser in
headless mode with exactly the two fake-media-device flags, opening one
new page, and navigating it to exactly `http://localhost:5173/`. -/
theorem run_launch_config_fixed (o : Oracle) :
    (run o).1.take 3 =
      [Event.launchBrowser true
         ["--use-fake-ui-for-media-stream", "--use-fake-device-for-media-stream"],
       Event.newPage,
       Event.goto "http://localhost:5173/"] := by
  obtain ⟨w, v⟩ := o
  cases w <;> cases v <;> rfl

/-- Claim C9: importing the module performs no side effects: `run()` is
invoked only under the `__main__` guard, so loading the file under any
other module name produces an empty trace (no browser launch, no file
write, no output) and returns normally. -/
theorem loadModule_no_side_effects (name : String) (o : Oracle)
    (h : name ≠ "__main__") :
    loadModule name o = ([], Except.ok ()) := by
  unfold loadModule
  rw [if_neg h]

/-- Claim C9 witness: loading the module under the name "vzone" does
nothing. -/
theorem loadModule_no_side_effects_witness :
    loadModule "vzone" ⟨true, false⟩ = ([], Except.ok ()) := by
  exact loadModule_no_side_effects "vzone" ⟨true, false⟩ (by decide)

/-- Claim C10: `run()` is deterministic in its browser observations: two
executions whose readiness-wait outcome and visibility-check result agree
print the same lines in the same order and request the same screenshots
(same path, same flag). -/
theorem run_deterministic (o1 o2 : Oracle)
    (hw : o1.waitEnabledOk = o2.waitEnabledOk)
    (hv : o1.chooseBackgroundVisible = o2.chooseBackgroundVisible) :
    printedLines (run o1).1 = printedLines (run o2).1 ∧
      screenshotEvents (run o1).1 = screenshotEvents (run o2).1 := by
  obtain ⟨w1, v1⟩ := o1
  obtain ⟨w2, v2⟩ := o2
  have he : (⟨w1, v1⟩ : Oracle) = ⟨w2, v2⟩ := by
    rw [Oracle.mk.injEq]
    exact ⟨hw, hv⟩
  rw [he]
  exact ⟨rfl, rfl⟩

/-- Claim C10 witness: two executions with identical observations (wait
succeeded, picker not visible) produce identical output and screenshot
requests. -/
theorem run_deterministic_witness :
    printedLines (run ⟨true, false⟩).1 = printedLines (run ⟨true, false⟩).1 ∧
      screenshotEvents (run ⟨true, false⟩).1 =
        screenshotEvents (run ⟨true, false⟩).1 := by
  exact run_deterministic ⟨true, false⟩ ⟨true, false⟩ rfl rfl
